import Mathlib

/-!
Shallow embedding of the ShoeKart storefront core: the data model (SQL schema),
the catalog reader (`Products.tsx`), the cart page handlers (`Cart.tsx`), the
order reader (`Orders.tsx`) and the admin product toggle (`Admin.tsx`), together
with theorems settling the specification's claims about them.

Currency values (`DECIMAL(10,2)` columns, JS numbers) are embedded as exact
rationals; integer columns as `ℤ`/`ℕ`; identifiers as `ℕ`; fallible remote
calls are driven by explicit failure flags.
-/

namespace ShoeKart

/-- A row of `public.products` (schema in the SQL migration; TS interface
`Product` in `Products.tsx` / `Admin.tsx`). -/
structure Product where
  id : ℕ
  name : String
  description : String
  price : ℚ
  image_url : String
  brand : String
  stock_quantity : ℤ
  is_active : Bool
deriving Repr, DecidableEq

/-- A row of `public.cart` (schema: `UNIQUE(user_id, product_id, selected_size)`). -/
structure CartRow where
  id : ℕ
  user_id : ℕ
  product_id : ℕ
  quantity : ℤ
  selected_size : String
deriving Repr, DecidableEq

/-- A client-side cart line as used by `Cart.tsx`: a cart row joined with a
cached snapshot of its product (`item.product`), fetched when the cart was
loaded. -/
structure CartItem where
  id : ℕ
  product_id : ℕ
  quantity : ℤ
  selected_size : String
  product : Product
deriving Repr, DecidableEq

/-- A row of `public.orders`. -/
structure Order where
  id : ℕ
  user_id : ℕ
  total_amount : ℚ
  status : String
deriving Repr, DecidableEq

/-- A row of `public.order_items`. -/
structure OrderItem where
  order_id : ℕ
  product_id : ℕ
  quantity : ℤ
  price : ℚ
  selected_size : String
deriving Repr, DecidableEq

/-- The remote store: the four tables the checkout protocol touches. -/
structure StoreState where
  products : List Product
  orders : List Order
  order_items : List OrderItem
  cart : List CartRow
deriving Repr, DecidableEq

/-! ### String helpers (JS `toLowerCase` / `includes`), structural so that
concrete instances reduce. -/

/-- Character-wise lower-casing, embedding JS `String.prototype.toLowerCase`
on the ASCII identifiers this app uses. -/
def jsToLower (s : String) : String :=
  ⟨s.data.map Char.toLower⟩

/-- Whether `needle` is a prefix of `hay` (auxiliary for `strIncludes`). -/
def isPrefixList : List Char → List Char → Bool
  | [], _ => true
  | _ :: _, [] => false
  | a :: as, b :: bs => a = b && isPrefixList as bs

/-- Whether `needle` occurs contiguously somewhere in `hay` (auxiliary for
`strIncludes`; an empty needle is contained in every string, as for JS
`includes`). -/
def infixGo (needle : List Char) : List Char → Bool
  | [] => false
  | b :: bs => isPrefixList needle (b :: bs) || infixGo needle bs

def infixAux (needle hay : List Char) : Bool :=
  match needle with
  | [] => true
  | _ :: _ => infixGo needle hay

/-- Embedding of JS `hay.includes(needle)`: substring containment. -/
def strIncludes (hay needle : String) : Bool :=
  infixAux needle.data hay.data

/-! ### Catalog reader (`Products.tsx`) -/

/-- The catalog read of `Products.tsx` (`fetchProducts`): selects rows with
`is_active = true`. -/
def fetchProducts (products : List Product) : List Product :=
  products.filter (fun p => p.is_active)

/-- The filter predicate of `filteredProducts` in `Products.tsx`: a search
match on name or brand, an optional brand equality, and an optional price
bracket chosen by the `priceRange` string. -/
def productMatches (searchTerm selectedBrand priceRange : String) (product : Product) : Bool :=
  let matchesSearch := strIncludes (jsToLower product.name) (jsToLower searchTerm) ||
                       strIncludes (jsToLower product.brand) (jsToLower searchTerm)
  let matchesBrand := decide (selectedBrand = "all") || decide (product.brand = selectedBrand)
  let matchesPrice :=
    if priceRange = "under-100" then decide (product.price < 100)
    else if priceRange = "100-200" then decide (product.price ≥ 100) && decide (product.price ≤ 200)
    else if priceRange = "over-200" then decide (product.price > 200)
    else true
  matchesSearch && matchesBrand && matchesPrice

/-- The `filteredProducts` computation of `Products.tsx`. -/
def filteredProducts (products : List Product) (searchTerm selectedBrand priceRange : String) :
    List Product :=
  products.filter (productMatches searchTerm selectedBrand priceRange)

/-! ### Sample items for the catalog-filter scenario of the spec
(prices 59.99, 129.99, 199.99). -/

/-- Sample catalog item priced 59.99. -/
def itemLow : Product :=
  { id := 1, name := "Converse Chuck Taylor", description := "Classic canvas sneakers",
    price := 59.99, image_url := "low.jpg", brand := "Converse",
    stock_quantity := 75, is_active := true }

/-- Sample catalog item priced 129.99. -/
def itemMid : Product :=
  { id := 2, name := "Nike Air Max 270", description := "Comfortable running shoes",
    price := 129.99, image_url := "mid.jpg", brand := "Nike",
    stock_quantity := 50, is_active := true }

/-- Sample catalog item priced 199.99. -/
def itemHigh : Product :=
  { id := 3, name := "New Balance 990v5", description := "Premium running shoes",
    price := 199.99, image_url := "high.jpg", brand := "New Balance",
    stock_quantity := 20, is_active := true }

/-! ### Evaluation lemmas for the filter predicate -/

theorem productMatches_under100 (p : Product) :
    productMatches "" "all" "under-100" p = decide (p.price < 100) := rfl

theorem productMatches_100to200 (p : Product) :
    productMatches "" "all" "100-200" p = (decide (p.price ≥ 100) && decide (p.price ≤ 200)) := rfl

theorem productMatches_over200 (p : Product) :
    productMatches "" "all" "over-200" p = decide (p.price > 200) := rfl

theorem matchLow_under : productMatches "" "all" "under-100" itemLow = true := by
  rw [productMatches_under100]; exact decide_eq_true (by norm_num [itemLow])

theorem matchMid_under : productMatches "" "all" "under-100" itemMid = false := by
  rw [productMatches_under100]; exact decide_eq_false (by norm_num [itemMid])

theorem matchHigh_under : productMatches "" "all" "under-100" itemHigh = false := by
  rw [productMatches_under100]; exact decide_eq_false (by norm_num [itemHigh])

theorem matchLow_mid : productMatches "" "all" "100-200" itemLow = false := by
  rw [productMatches_100to200]
  have h : decide (itemLow.price ≥ 100) = false := decide_eq_false (by norm_num [itemLow])
  rw [h]; rfl

theorem matchMid_mid : productMatches "" "all" "100-200" itemMid = true := by
  rw [productMatches_100to200]
  have h1 : decide (itemMid.price ≥ 100) = true := decide_eq_true (by norm_num [itemMid])
  have h2 : decide (itemMid.price ≤ 200) = true := decide_eq_true (by norm_num [itemMid])
  rw [h1, h2]; rfl

theorem matchHigh_mid : productMatches "" "all" "100-200" itemHigh = true := by
  rw [productMatches_100to200]
  have h1 : decide (itemHigh.price ≥ 100) = true := decide_eq_true (by norm_num [itemHigh])
  have h2 : decide (itemHigh.price ≤ 200) = true := decide_eq_true (by norm_num [itemHigh])
  rw [h1, h2]; rfl

theorem matchLow_over : productMatches "" "all" "over-200" itemLow = false := by
  rw [productMatches_over200]; exact decide_eq_false (by norm_num [itemLow])

theorem matchMid_over : productMatches "" "all" "over-200" itemMid = false := by
  rw [productMatches_over200]; exact decide_eq_false (by norm_num [itemMid])

theorem matchHigh_over : productMatches "" "all" "over-200" itemHigh = false := by
  rw [productMatches_over200]; exact decide_eq_false (by norm_num [itemHigh])

/-- C6 counterexample: on the catalog items priced 59.99, 129.99 and 199.99,
selecting the `over-200` bracket returns no item at all (199.99 is not greater
than 200), and the `100-200` bracket returns both the 129.99 and the 199.99
item — so `over-200` does not return exactly the 199.99 item and `100-200`
does not return exactly the 129.99 item, refuting the claim as stated. -/
theorem filteredProducts_bracket_counterexample :
    filteredProducts [itemLow, itemMid, itemHigh] "" "all" "over-200" = [] ∧
    filteredProducts [itemLow, itemMid, itemHigh] "" "all" "100-200" = [itemMid, itemHigh] ∧
    ([] : List Product) ≠ [itemHigh] ∧
    [itemMid, itemHigh] ≠ [itemMid] := by
  refine ⟨?_, ?_, by simp, by simp⟩
  · simp only [filteredProducts, List.filter_cons, List.filter_nil,
      matchLow_over, matchMid_over, matchHigh_over]
    rfl
  · simp only [filteredProducts, List.filter_cons, List.filter_nil,
      matchLow_mid, matchMid_mid, matchHigh_mid]
    rfl

/-- C6 (amended): with an empty search term and no brand restriction, the
price-bracket filter of `Products.tsx` selects by `price < 100` for
`under-100`, by `100 ≤ price ≤ 200` for `100-200`, and by `price > 200` for
`over-200`; on items priced 59.99, 129.99 and 199.99, bracket `under-100`
returns exactly the 59.99 item, `100-200` returns the 129.99 item and the
199.99 item, and `over-200` returns no item (the brackets partition prices as
`<100`, `100–200`, `>200`, so 199.99 falls in `100-200`, not `over-200`). -/
theorem filteredProducts_price_brackets (ps : List Product) :
    (∀ p, p ∈ filteredProducts ps "" "all" "under-100" ↔ p ∈ ps ∧ p.price < 100) ∧
    (∀ p, p ∈ filteredProducts ps "" "all" "100-200" ↔ p ∈ ps ∧ 100 ≤ p.price ∧ p.price ≤ 200) ∧
    (∀ p, p ∈ filteredProducts ps "" "all" "over-200" ↔ p ∈ ps ∧ 200 < p.price) ∧
    filteredProducts [itemLow, itemMid, itemHigh] "" "all" "under-100" = [itemLow] ∧
    filteredProducts [itemLow, itemMid, itemHigh] "" "all" "100-200" = [itemMid, itemHigh] ∧
    filteredProducts [itemLow, itemMid, itemHigh] "" "all" "over-200" = [] := by
  refine ⟨?_, ?_, ?_, ?_, ?_, ?_⟩
  · intro p
    rw [filteredProducts, List.mem_filter, productMatches_under100, decide_eq_true_eq]
  · intro p
    rw [filteredProducts, List.mem_filter, productMatches_100to200]
    simp only [Bool.and_eq_true, decide_eq_true_eq, ge_iff_le]
  · intro p
    rw [filteredProducts, List.mem_filter, productMatches_over200, decide_eq_true_eq]
  · simp only [filteredProducts, List.filter_cons, List.filter_nil,
      matchLow_under, matchMid_under, matchHigh_under]
    rfl
  · simp only [filteredProducts, List.filter_cons, List.filter_nil,
      matchLow_mid, matchMid_mid, matchHigh_mid]
    rfl
  · simp only [filteredProducts, List.filter_cons, List.filter_nil,
      matchLow_over, matchMid_over, matchHigh_over]
    rfl

/-- Witness for the amended C6 theorem at a concrete input: the 59.99 item is
returned by the `under-100` bracket on a catalog containing it. -/
theorem filteredProducts_price_brackets_witness :
    itemLow ∈ filteredProducts [itemLow] "" "all" "under-100" :=
  ((filteredProducts_price_brackets [itemLow]).1 itemLow).mpr
    ⟨by simp, by norm_num [itemLow]⟩

/-! ### Cart page handlers (`Cart.tsx`) -/

/-- The cart total of `Cart.tsx` line 18: `cartItems.reduce((sum, item) =>
sum + item.product.price * item.quantity, 0)` — computed from the cached
product snapshots, not from the store. -/
def cartTotal (cartItems : List CartItem) : ℚ :=
  cartItems.foldl (fun sum item => sum + item.product.price * (item.quantity : ℚ)) 0

/-- Modelled from the spec: `setQuantity(lineId, n)` sets the referenced cart
line's quantity to `n` (the `useCart` hook implementing `updateQuantity` is
not among the source files; `Cart.tsx` only calls it). -/
def updateQuantity (cartItemId : ℕ) (newQuantity : ℤ) (cart : List CartRow) : List CartRow :=
  cart.map (fun r => if r.id = cartItemId then { r with quantity := newQuantity } else r)

/-- The `handleQuantityChange` handler of `Cart.tsx` lines 20–23:
`if (newQuantity < 1) return;` and otherwise `await updateQuantity(...)`.
The result records the cart rows afterwards, whether an update request was
issued, and the error notification surfaced to the user (the handler shows
none in either branch). -/
def handleQuantityChange (cartItemId : ℕ) (newQuantity : ℤ) (cart : List CartRow) :
    List CartRow × Bool × Option String :=
  if newQuantity < 1 then (cart, false, none)
  else (updateQuantity cartItemId newQuantity cart, true, none)

/-- Modelled from the spec: `clear(owner)` deletes all cart lines of the owner
(the `useCart` hook implementing `clearCart` is not among the source files;
`Cart.tsx` awaits it as checkout step 4). -/
def clearCart (uid : ℕ) (cart : List CartRow) : List CartRow :=
  cart.filter (fun r => !(decide (r.user_id = uid)))

/-- The `update('products', { stock_quantity := newStock }).eq('id', productId)`
call of checkout step 3: overwrites the stock of every products row with the
given id. -/
def updateStock (products : List Product) (productId : ℕ) (newStock : ℤ) : List Product :=
  products.map (fun p => if p.id = productId then { p with stock_quantity := newStock } else p)

/-- Checkout step 3 (`Cart.tsx` lines 59–70): for each cart line, write the
product's stock as the cached snapshot stock minus the line quantity. A
failing update (`stockError`, injected here by listing the product id in
`stockFail`) is only logged to the console: the loop continues and the state
is unchanged for that item. -/
def applyStockUpdates (stockFail : List ℕ) (cartItems : List CartItem)
    (products : List Product) : List Product :=
  cartItems.foldl
    (fun ps item =>
      if item.product_id ∈ stockFail then ps
      else updateStock ps item.product_id (item.product.stock_quantity - item.quantity))
    products

/-- The order-line rows built by `Cart.tsx` lines 44–50: one per cart line,
copying the snapshot price and the selected size. -/
def orderLinesOf (orderId : ℕ) (cartItems : List CartItem) : List OrderItem :=
  cartItems.map (fun item =>
    { order_id := orderId, product_id := item.product_id, quantity := item.quantity,
      price := item.product.price, selected_size := item.selected_size })

/-- Which of the checkout's fallible remote calls fail in a given run. -/
structure CheckoutFailures where
  orderInsert : Bool
  itemsInsert : Bool
  stockFail : List ℕ
  clearFail : Bool
deriving Repr, DecidableEq

/-- The run in which every remote call succeeds. -/
def noFail : CheckoutFailures :=
  { orderInsert := false, itemsInsert := false, stockFail := [], clearFail := false }

/-- The observable outcome of `handlePlaceOrder`: `silentReturn` is the bare
`return` of the guard (no toast at all), `committed` is the success toast and
navigation, `failed` is the catch branch (error logged and failure toast). -/
inductive PlaceOrderResult
  | silentReturn
  | committed
  | failed
deriving Repr, DecidableEq

/-- The `handlePlaceOrder` checkout orchestrator of `Cart.tsx` lines 25–83:
guard (`if (!user || cartItems.length === 0) return;`), then four sequential
independently-committed steps: insert the order row (status `pending`, total
from the cached snapshots), insert the order lines, overwrite each product's
stock with snapshot stock minus quantity (failures only logged), clear the
owner's cart. A thrown error in steps 1, 2 or 4 lands in the catch branch
with the state reached so far. -/
def handlePlaceOrder (user : Option ℕ) (cartItems : List CartItem) (orderId : ℕ)
    (failures : CheckoutFailures) (st : StoreState) : StoreState × PlaceOrderResult :=
  match user with
  | none => (st, PlaceOrderResult.silentReturn)
  | some uid =>
    if cartItems.length = 0 then (st, PlaceOrderResult.silentReturn)
    else if failures.orderInsert then (st, PlaceOrderResult.failed)
    else
      let order : Order :=
        { id := orderId, user_id := uid, total_amount := cartTotal cartItems,
          status := "pending" }
      let st1 : StoreState := { st with orders := st.orders ++ [order] }
      if failures.itemsInsert then (st1, PlaceOrderResult.failed)
      else
        let st2 : StoreState :=
          { st1 with order_items := st1.order_items ++ orderLinesOf orderId cartItems }
        let st3 : StoreState :=
          { st2 with products := applyStockUpdates failures.stockFail cartItems st2.products }
        if failures.clearFail then (st3, PlaceOrderResult.failed)
        else ({ st3 with cart := clearCart uid st3.cart }, PlaceOrderResult.committed)

/-- The order row inserted by checkout step 1. -/
def orderRowOf (uid orderId : ℕ) (cartItems : List CartItem) : Order :=
  { id := orderId, user_id := uid, total_amount := cartTotal cartItems, status := "pending" }

/-- The stock of the (first) products row with the given id, if any. -/
def stockOf (products : List Product) (productId : ℕ) : Option ℤ :=
  (products.find? (fun p => decide (p.id = productId))).map (fun p => p.stock_quantity)

/-! ### Unfolding lemmas for the checkout paths -/

theorem handlePlaceOrder_guard (user : Option ℕ) (cartItems : List CartItem) (orderId : ℕ)
    (f : CheckoutFailures) (st : StoreState) (h : user = none ∨ cartItems = []) :
    handlePlaceOrder user cartItems orderId f st = (st, PlaceOrderResult.silentReturn) := by
  rcases h with h | h
  · subst h; rfl
  · subst h
    cases user with
    | none => rfl
    | some uid => simp [handlePlaceOrder]

theorem handlePlaceOrder_orderFail (uid : ℕ) (cartItems : List CartItem) (orderId : ℕ)
    (f : CheckoutFailures) (st : StoreState) (h : cartItems ≠ [])
    (hf : f.orderInsert = true) :
    handlePlaceOrder (some uid) cartItems orderId f st = (st, PlaceOrderResult.failed) := by
  cases cartItems with
  | nil => exact absurd rfl h
  | cons a l => simp [handlePlaceOrder, hf]

theorem handlePlaceOrder_itemsFail (uid : ℕ) (cartItems : List CartItem) (orderId : ℕ)
    (f : CheckoutFailures) (st : StoreState) (h : cartItems ≠ [])
    (h1 : f.orderInsert = false) (h2 : f.itemsInsert = true) :
    handlePlaceOrder (some uid) cartItems orderId f st =
      ({ st with orders := st.orders ++ [orderRowOf uid orderId cartItems] },
        PlaceOrderResult.failed) := by
  cases cartItems with
  | nil => exact absurd rfl h
  | cons a l => simp [handlePlaceOrder, h1, h2, orderRowOf]

theorem handlePlaceOrder_clearFail (uid : ℕ) (cartItems : List CartItem) (orderId : ℕ)
    (f : CheckoutFailures) (st : StoreState) (h : cartItems ≠ [])
    (h1 : f.orderInsert = false) (h2 : f.itemsInsert = false) (h3 : f.clearFail = true) :
    handlePlaceOrder (some uid) cartItems orderId f st =
      ({ products := applyStockUpdates f.stockFail cartItems st.products,
         orders := st.orders ++ [orderRowOf uid orderId cartItems],
         order_items := st.order_items ++ orderLinesOf orderId cartItems,
         cart := st.cart },
        PlaceOrderResult.failed) := by
  cases cartItems with
  | nil => exact absurd rfl h
  | cons a l => simp [handlePlaceOrder, h1, h2, h3, orderRowOf]

theorem handlePlaceOrder_run (uid : ℕ) (cartItems : List CartItem) (orderId : ℕ)
    (f : CheckoutFailures) (st : StoreState) (h : cartItems ≠ [])
    (h1 : f.orderInsert = false) (h2 : f.itemsInsert = false) (h3 : f.clearFail = false) :
    handlePlaceOrder (some uid) cartItems orderId f st =
      ({ products := applyStockUpdates f.stockFail cartItems st.products,
         orders := st.orders ++ [orderRowOf uid orderId cartItems],
         order_items := st.order_items ++ orderLinesOf orderId cartItems,
         cart := clearCart uid st.cart },
        PlaceOrderResult.committed) := by
  cases cartItems with
  | nil => exact absurd rfl h
  | cons a l => simp [handlePlaceOrder, h1, h2, h3, orderRowOf]

/-! ### Stock-update lemmas -/

theorem find?_map_pres (f : Product → Product) (pred : Product → Bool)
    (hpred : ∀ p, pred (f p) = pred p) :
    ∀ ps : List Product, (ps.map f).find? pred = (ps.find? pred).map f := by
  intro ps
  induction ps with
  | nil => rfl
  | cons p ps ih =>
    simp only [List.map_cons, List.find?_cons, hpred p]
    cases hp : pred p
    · exact ih
    · rfl

theorem updateStock_find? (ps : List Product) (pid : ℕ) (v : ℤ) (pid2 : ℕ) :
    (updateStock ps pid v).find? (fun p => decide (p.id = pid2)) =
      (ps.find? (fun p => decide (p.id = pid2))).map
        (fun p => if p.id = pid then { p with stock_quantity := v } else p) := by
  refine find?_map_pres _ _ ?_ ps
  intro p
  by_cases h : p.id = pid <;> simp [h]

theorem stockOf_updateStock_self (products : List Product) (pid : ℕ) (v : ℤ) :
    stockOf (updateStock products pid v) pid = (stockOf products pid).map (fun _ => v) := by
  unfold stockOf
  rw [updateStock_find?]
  cases hfind : products.find? (fun p => decide (p.id = pid)) with
  | none => rfl
  | some q =>
    have hq : q.id = pid := by simpa using List.find?_some hfind
    simp [hq]

theorem stockOf_updateStock_other (products : List Product) (pid pid2 : ℕ) (v : ℤ)
    (h : pid2 ≠ pid) :
    stockOf (updateStock products pid v) pid2 = stockOf products pid2 := by
  unfold stockOf
  rw [updateStock_find?]
  cases hfind : products.find? (fun p => decide (p.id = pid2)) with
  | none => rfl
  | some q =>
    have hq : q.id = pid2 := by simpa using List.find?_some hfind
    have hne : ¬ q.id = pid := fun hc => h (hq ▸ hc)
    simp [hne]

theorem stockOf_applyStockUpdates_not_mem (stockFail : List ℕ) (cartItems : List CartItem)
    (products : List Product) (pid : ℕ)
    (h : pid ∉ cartItems.map (fun item => item.product_id)) :
    stockOf (applyStockUpdates stockFail cartItems products) pid = stockOf products pid := by
  induction cartItems generalizing products with
  | nil => rfl
  | cons item rest ih =>
    simp only [List.map_cons, List.mem_cons, not_or] at h
    obtain ⟨hne, hrest⟩ := h
    simp only [applyStockUpdates, List.foldl_cons]
    by_cases hf : item.product_id ∈ stockFail
    · simp only [if_pos hf]
      exact ih products hrest
    · simp only [if_neg hf]
      rw [show (List.foldl _ _ _ : List Product) = applyStockUpdates stockFail rest
            (updateStock products item.product_id
              (item.product.stock_quantity - item.quantity)) from rfl]
      rw [ih _ hrest]
      exact stockOf_updateStock_other _ _ _ _ hne

theorem stockOf_applyStockUpdates_mem (stockFail : List ℕ) (cartItems : List CartItem)
    (products : List Product) (item : CartItem)
    (hnd : (cartItems.map (fun i => i.product_id)).Nodup)
    (hmem : item ∈ cartItems) (hnf : item.product_id ∉ stockFail) :
    stockOf (applyStockUpdates stockFail cartItems products) item.product_id =
      (stockOf products item.product_id).map
        (fun _ => item.product.stock_quantity - item.quantity) := by
  induction cartItems generalizing products with
  | nil => cases hmem
  | cons a rest ih =>
    simp only [List.map_cons, List.nodup_cons] at hnd
    obtain ⟨hna, hndrest⟩ := hnd
    simp only [applyStockUpdates, List.foldl_cons]
    rcases List.mem_cons.mp hmem with rfl | hmemrest
    · simp only [if_neg hnf]
      rw [show (List.foldl _ _ _ : List Product) = applyStockUpdates stockFail rest
            (updateStock products item.product_id
              (item.product.stock_quantity - item.quantity)) from rfl]
      rw [stockOf_applyStockUpdates_not_mem _ _ _ _ hna]
      exact stockOf_updateStock_self _ _ _
    · have hne : a.product_id ≠ item.product_id := by
        intro hc
        exact hna (hc ▸ List.mem_map_of_mem (fun i => i.product_id) hmemrest)
      by_cases hf : a.product_id ∈ stockFail
      · simp only [if_pos hf]
        exact ih products hndrest hmemrest
      · simp only [if_neg hf]
        rw [show (List.foldl _ _ _ : List Product) = applyStockUpdates stockFail rest
              (updateStock products a.product_id
                (a.product.stock_quantity - a.quantity)) from rfl]
        rw [ih _ hndrest hmemrest]
        rw [stockOf_updateStock_other _ _ _ _ hne.symm]

theorem applyStockUpdates_all_fail (stockFail : List ℕ) (cartItems : List CartItem)
    (products : List Product)
    (h : ∀ item ∈ cartItems, item.product_id ∈ stockFail) :
    applyStockUpdates stockFail cartItems products = products := by
  induction cartItems generalizing products with
  | nil => rfl
  | cons a rest ih =>
    simp only [applyStockUpdates, List.foldl_cons, if_pos (h a (List.mem_cons_self a rest))]
    exact ih products (fun item hi => h item (List.mem_cons_of_mem a hi))

theorem updateStock_stock_nonneg (products : List Product) (pid : ℕ) (v : ℤ)
    (hps : ∀ p ∈ products, 0 ≤ p.stock_quantity) (hv : 0 ≤ v) :
    ∀ p ∈ updateStock products pid v, 0 ≤ p.stock_quantity := by
  intro p hp
  obtain ⟨q, hq, hpq⟩ := List.mem_map.mp hp
  by_cases h : q.id = pid
  · rw [if_pos h] at hpq
    rw [← hpq]
    exact hv
  · rw [if_neg h] at hpq
    rw [← hpq]
    exact hps q hq

theorem applyStockUpdates_stock_nonneg (stockFail : List ℕ) (cartItems : List CartItem)
    (products : List Product)
    (hps : ∀ p ∈ products, 0 ≤ p.stock_quantity)
    (hqty : ∀ item ∈ cartItems, item.quantity ≤ item.product.stock_quantity) :
    ∀ p ∈ applyStockUpdates stockFail cartItems products, 0 ≤ p.stock_quantity := by
  induction cartItems generalizing products with
  | nil => exact hps
  | cons a rest ih =>
    simp only [applyStockUpdates, List.foldl_cons]
    by_cases hf : a.product_id ∈ stockFail
    · simp only [if_pos hf]
      exact ih products hps (fun item hi => hqty item (List.mem_cons_of_mem a hi))
    · simp only [if_neg hf]
      refine ih _ ?_ (fun item hi => hqty item (List.mem_cons_of_mem a hi))
      refine updateStock_stock_nonneg _ _ _ hps ?_
      have := hqty a (List.mem_cons_self a rest)
      omega

/-! ### Sum lemma for order totals -/

/-- The specification's invariant expression `sum(quantity * price)` over a
list of order lines. -/
def orderItemsTotal (lines : List OrderItem) : ℚ :=
  (lines.map (fun l => (l.quantity : ℚ) * l.price)).sum

theorem cartTotal_go (cartItems : List CartItem) (a : ℚ) :
    cartItems.foldl (fun sum item => sum + item.product.price * (item.quantity : ℚ)) a =
      a + (cartItems.map (fun i => (i.quantity : ℚ) * i.product.price)).sum := by
  induction cartItems generalizing a with
  | nil => simp
  | cons i rest ih =>
    simp only [List.foldl_cons, List.map_cons, List.sum_cons, ih]
    ring

theorem cartTotal_eq_orderItemsTotal (orderId : ℕ) (cartItems : List CartItem) :
    cartTotal cartItems = orderItemsTotal (orderLinesOf orderId cartItems) := by
  unfold cartTotal orderItemsTotal orderLinesOf
  rw [cartTotal_go, List.map_map, zero_add]
  rfl

/-! ### Sample data for witnesses and counterexamples -/

/-- The empty store. -/
def emptyState : StoreState := { products := [], orders := [], order_items := [], cart := [] }

/-- A store whose catalog is the 129.99 item. -/
def baseState : StoreState :=
  { products := [itemMid], orders := [], order_items := [], cart := [⟨1, 7, 2, 2, "9"⟩] }

/-- A client cart line of quantity 2 for the 129.99 item, snapshot taken from
`baseState`. -/
def wItem : CartItem :=
  { id := 1, product_id := 2, quantity := 2, selected_size := "9", product := itemMid }

/-! ### C1 — order total equals the sum of its lines at captured prices -/

/-- C1: for a non-empty cart, a successful `placeOrder` run inserts one order
row and one order line per cart line, and the order's `total_amount` equals
`sum(quantity * price)` over the inserted order lines, where each line's
price is the cached snapshot price from checkout time; the inserted rows are
the same for any store-side product list, so later price changes cannot
affect them. -/
theorem placeOrder_total_amount (uid : ℕ) (cartItems : List CartItem) (orderId : ℕ)
    (st : StoreState) (h : cartItems ≠ []) :
    (handlePlaceOrder (some uid) cartItems orderId noFail st).2 = PlaceOrderResult.committed ∧
    (handlePlaceOrder (some uid) cartItems orderId noFail st).1.orders =
      st.orders ++ [orderRowOf uid orderId cartItems] ∧
    (handlePlaceOrder (some uid) cartItems orderId noFail st).1.order_items =
      st.order_items ++ orderLinesOf orderId cartItems ∧
    (orderRowOf uid orderId cartItems).total_amount =
      orderItemsTotal (orderLinesOf orderId cartItems) ∧
    (orderLinesOf orderId cartItems).map (fun l => l.price) =
      cartItems.map (fun i => i.product.price) ∧
    (∀ ps2 : List Product,
      (handlePlaceOrder (some uid) cartItems orderId noFail
          { st with products := ps2 }).1.order_items =
        st.order_items ++ orderLinesOf orderId cartItems) := by
  rw [handlePlaceOrder_run uid cartItems orderId noFail st h rfl rfl rfl]
  refine ⟨rfl, rfl, rfl, cartTotal_eq_orderItemsTotal orderId cartItems, ?_, ?_⟩
  · rw [orderLinesOf, List.map_map]
    rfl
  · intro ps2
    rw [handlePlaceOrder_run uid cartItems orderId noFail { st with products := ps2 } h rfl rfl rfl]

/-- Witness for C1 at a concrete input: one cart line of quantity 2 at
snapshot price 129.99. -/
theorem placeOrder_total_amount_witness :
    (handlePlaceOrder (some 7) [wItem] 10 noFail baseState).2 = PlaceOrderResult.committed ∧
    (orderRowOf 7 10 [wItem]).total_amount = orderItemsTotal (orderLinesOf 10 [wItem]) :=
  ⟨(placeOrder_total_amount 7 [wItem] 10 baseState (by simp)).1,
   (placeOrder_total_amount 7 [wItem] 10 baseState (by simp)).2.2.2.1⟩

/-! ### C2 — failure semantics of the four steps -/

/-- C2 counterexample: a run in which checkout step 3 (the stock decrement)
fails is reported as a success (`committed`, the success toast), not as the
`failed` outcome — the stock error is only logged, refuting the claim that
any step's failure is surfaced to the caller. -/
theorem stock_error_not_surfaced_counterexample :
    (handlePlaceOrder (some 7) [wItem] 12 { noFail with stockFail := [2] } baseState).2 =
      PlaceOrderResult.committed ∧
    PlaceOrderResult.committed ≠ PlaceOrderResult.failed := by
  constructor
  · rw [handlePlaceOrder_run 7 [wItem] 12 _ baseState (by simp) rfl rfl rfl]
  · decide

/-- C2 (amended): a failure in step 1 (order insert), step 2 (order-lines
insert) or step 4 (cart clear) is surfaced as the `failed` outcome and no
compensating rollback is performed — all rows committed by earlier steps
persist unchanged; a failure in step 3 (stock decrement) however is only
logged: the run continues, clears the cart and reports success with the
stock writes skipped. -/
theorem placeOrder_failure_semantics (uid orderId : ℕ) (cartItems : List CartItem)
    (st : StoreState) (h : cartItems ≠ []) :
    (handlePlaceOrder (some uid) cartItems orderId { noFail with orderInsert := true } st =
      (st, PlaceOrderResult.failed)) ∧
    (handlePlaceOrder (some uid) cartItems orderId { noFail with itemsInsert := true } st =
      ({ st with orders := st.orders ++ [orderRowOf uid orderId cartItems] },
        PlaceOrderResult.failed)) ∧
    (handlePlaceOrder (some uid) cartItems orderId { noFail with clearFail := true } st =
      ({ products := applyStockUpdates [] cartItems st.products,
         orders := st.orders ++ [orderRowOf uid orderId cartItems],
         order_items := st.order_items ++ orderLinesOf orderId cartItems,
         cart := st.cart }, PlaceOrderResult.failed)) ∧
    ((handlePlaceOrder (some uid) cartItems orderId
        { noFail with stockFail := cartItems.map (fun i => i.product_id) } st).2 =
      PlaceOrderResult.committed) ∧
    ((handlePlaceOrder (some uid) cartItems orderId
        { noFail with stockFail := cartItems.map (fun i => i.product_id) } st).1.products =
      st.products) := by
  refine ⟨?_, ?_, ?_, ?_, ?_⟩
  · exact handlePlaceOrder_orderFail _ _ _ _ _ h rfl
  · exact handlePlaceOrder_itemsFail _ _ _ _ _ h rfl rfl
  · exact handlePlaceOrder_clearFail _ _ _ _ _ h rfl rfl rfl
  · rw [handlePlaceOrder_run _ _ _ _ _ h rfl rfl rfl]
  · rw [handlePlaceOrder_run _ _ _ _ _ h rfl rfl rfl]
    exact applyStockUpdates_all_fail _ _ _ (fun item hi => List.mem_map_of_mem _ hi)

/-- Witness for the amended C2 theorem at a concrete input: a failing order
insert leaves the store untouched and reports failure. -/
theorem placeOrder_failure_semantics_witness :
    handlePlaceOrder (some 7) [wItem] 13 { noFail with orderInsert := true } baseState =
      (baseState, PlaceOrderResult.failed) :=
  (placeOrder_failure_semantics 7 13 [wItem] baseState (by simp)).1

/-! ### C3 — stock non-negativity -/

/-- A catalog row holding a single unit of stock. -/
def lowStockProduct : Product :=
  { id := 4, name := "Puma RS-X", description := "Retro chunky sneakers",
    price := 99.99, image_url := "puma.jpg", brand := "Puma",
    stock_quantity := 1, is_active := true }

/-- A cart line asking for 2 units of `lowStockProduct`, whose snapshot
agrees with the store (stock 1): the quantity was approved by the UI while
stock was still 2 and the stock was reduced before checkout. -/
def oversellItem : CartItem :=
  { id := 9, product_id := 4, quantity := 2, selected_size := "8",
    product := lowStockProduct }

/-- The store in which `oversellItem` is checked out. -/
def oversellState : StoreState :=
  { products := [lowStockProduct], orders := [], order_items := [],
    cart := [⟨9, 7, 4, 2, "8"⟩] }

/-- C3 counterexample: checkout step 3 writes `snapshot stock - quantity`
unguarded, so checking out a line whose quantity (2) exceeds the item's
stock (1) drives the stock to -1 — the non-negativity invariant does not
hold in all reachable states. -/
theorem stock_nonneg_counterexample :
    stockOf (handlePlaceOrder (some 7) [oversellItem] 11 noFail oversellState).1.products 4 =
      some (-1) ∧ ¬ (0 ≤ (-1 : ℤ)) := by
  constructor
  · decide
  · decide

/-- C3 (amended): stock non-negativity is not unconditional — checkout writes
each item's stock as cached snapshot stock minus line quantity, unguarded.
Stocks stay non-negative after any checkout run exactly under the guard that
every line's quantity is at most its cached snapshot stock (and all stocks
were non-negative before); when a line's quantity exceeds its snapshot stock
the written value is negative (see the counterexample). -/
theorem placeOrder_stock_nonneg (user : Option ℕ) (cartItems : List CartItem) (orderId : ℕ)
    (f : CheckoutFailures) (st : StoreState)
    (hps : ∀ p ∈ st.products, 0 ≤ p.stock_quantity)
    (hqty : ∀ item ∈ cartItems, item.quantity ≤ item.product.stock_quantity) :
    ∀ p ∈ (handlePlaceOrder user cartItems orderId f st).1.products, 0 ≤ p.stock_quantity := by
  cases user with
  | none =>
    rw [handlePlaceOrder_guard _ _ _ _ _ (Or.inl rfl)]
    exact hps
  | some uid =>
    cases hcart : cartItems with
    | nil =>
      rw [handlePlaceOrder_guard _ _ _ _ _ (Or.inr rfl)]
      exact hps
    | cons a l =>
      subst hcart
      have hne : a :: l ≠ ([] : List CartItem) := by simp
      cases h1 : f.orderInsert with
      | true =>
        rw [handlePlaceOrder_orderFail _ _ _ _ _ hne h1]
        exact hps
      | false =>
        cases h2 : f.itemsInsert with
        | true =>
          rw [handlePlaceOrder_itemsFail _ _ _ _ _ hne h1 h2]
          exact hps
        | false =>
          cases h3 : f.clearFail with
          | true =>
            rw [handlePlaceOrder_clearFail _ _ _ _ _ hne h1 h2 h3]
            exact applyStockUpdates_stock_nonneg _ _ _ hps hqty
          | false =>
            rw [handlePlaceOrder_run _ _ _ _ _ hne h1 h2 h3]
            exact applyStockUpdates_stock_nonneg _ _ _ hps hqty

/-- Witness for the amended C3 theorem at a concrete input: quantity 2 at
snapshot stock 50 leaves the written stock (48) non-negative. -/
theorem placeOrder_stock_nonneg_witness :
    0 ≤ ({ itemMid with stock_quantity := 48 } : Product).stock_quantity :=
  placeOrder_stock_nonneg (some 7) [wItem] 14 noFail baseState
    (by intro p hp; simp only [baseState, List.mem_singleton] at hp; subst hp; decide)
    (by intro item hi; simp only [List.mem_singleton] at hi; subst hi; decide)
    ({ itemMid with stock_quantity := 48 })
    (by
      rw [handlePlaceOrder_run 7 [wItem] 14 noFail baseState (by simp) rfl rfl rfl]
      show ({ itemMid with stock_quantity := 48 } : Product) ∈
        [({ itemMid with stock_quantity := 48 } : Product)]
      exact List.mem_singleton.mpr rfl)

/-! ### C4 — single-actor checkout: cart emptied, stock decremented exactly -/

/-- C4: for a non-empty cart with pairwise distinct product ids, checked out
by a single actor whose cached snapshots agree with the store (no concurrent
mutation), a successful `placeOrder` leaves no cart row of the owner and
decreases each involved product's stock by exactly the quantity of the
owner's cart line for it. -/
theorem placeOrder_single_actor (uid orderId : ℕ) (cartItems : List CartItem) (st : StoreState)
    (h : cartItems ≠ [])
    (hnd : (cartItems.map (fun i => i.product_id)).Nodup)
    (hsnap : ∀ item ∈ cartItems,
      stockOf st.products item.product_id = some item.product.stock_quantity) :
    (handlePlaceOrder (some uid) cartItems orderId noFail st).2 = PlaceOrderResult.committed ∧
    (∀ r ∈ (handlePlaceOrder (some uid) cartItems orderId noFail st).1.cart,
      r.user_id ≠ uid) ∧
    (∀ item ∈ cartItems,
      stockOf (handlePlaceOrder (some uid) cartItems orderId noFail st).1.products
          item.product_id =
        (stockOf st.products item.product_id).map (fun s => s - item.quantity)) := by
  rw [handlePlaceOrder_run uid cartItems orderId noFail st h rfl rfl rfl]
  refine ⟨rfl, ?_, ?_⟩
  · intro r hr
    simp only [clearCart, List.mem_filter, Bool.not_eq_true', decide_eq_false_iff_not] at hr
    exact hr.2
  · intro item hmem
    show stockOf (applyStockUpdates noFail.stockFail cartItems st.products) _ = _
    rw [stockOf_applyStockUpdates_mem noFail.stockFail cartItems st.products item hnd hmem
      (by simp [noFail])]
    rw [hsnap item hmem]
    rfl

/-- Witness for C4 at a concrete input: after checking out quantity 2 of the
item with stock 50, the owner's cart is empty and the stock reads 48. -/
theorem placeOrder_single_actor_witness :
    (handlePlaceOrder (some 7) [wItem] 15 noFail baseState).2 = PlaceOrderResult.committed ∧
    (∀ r ∈ (handlePlaceOrder (some 7) [wItem] 15 noFail baseState).1.cart, r.user_id ≠ 7) :=
  ⟨(placeOrder_single_actor 7 15 [wItem] baseState (by simp) (by simp)
      (by intro item hi; simp only [List.mem_singleton] at hi; subst hi; rfl)).1,
   (placeOrder_single_actor 7 15 [wItem] baseState (by simp) (by simp)
      (by intro item hi; simp only [List.mem_singleton] at hi; subst hi; rfl)).2.1⟩

/-! ### C5 — the checkout guard -/

/-- C5 counterexample: with an authenticated caller and an empty cart (and
likewise with no caller and a non-empty cart) `handlePlaceOrder` returns
silently — the same `silentReturn` outcome in both cases, with no order
created and no error surfaced; in particular the run does not end in the
`failed` outcome, and no `EmptyCart` / `Unauthenticated` distinction exists. -/
theorem guard_error_counterexample :
    handlePlaceOrder (some 7) [] 5 noFail emptyState =
      (emptyState, PlaceOrderResult.silentReturn) ∧
    (handlePlaceOrder none [wItem] 5 noFail emptyState).2 = PlaceOrderResult.silentReturn ∧
    PlaceOrderResult.silentReturn ≠ PlaceOrderResult.failed ∧
    (handlePlaceOrder (some 7) [] 5 noFail emptyState).2 =
      (handlePlaceOrder none [wItem] 5 noFail emptyState).2 := by
  refine ⟨by decide, rfl, by decide, rfl⟩

/-- C5 (amended): a place-order request proceeds past Idle only when the
caller is authenticated and the cart has at least one line; otherwise the
handler returns silently — the store is unchanged and no order is created,
but no error is surfaced and the two guard violations are indistinguishable
(there are no `EmptyCart` / `Unauthenticated` error values). -/
theorem placeOrder_guard_semantics (user : Option ℕ) (cartItems : List CartItem)
    (orderId : ℕ) (f : CheckoutFailures) (st : StoreState) :
    ((user = none ∨ cartItems = []) →
      handlePlaceOrder user cartItems orderId f st = (st, PlaceOrderResult.silentReturn)) ∧
    (∀ uid, user = some uid → cartItems ≠ [] →
      (handlePlaceOrder user cartItems orderId f st).2 ≠ PlaceOrderResult.silentReturn) := by
  constructor
  · exact handlePlaceOrder_guard user cartItems orderId f st
  · rintro uid rfl hne
    cases h1 : f.orderInsert with
    | true =>
      rw [handlePlaceOrder_orderFail _ _ _ _ _ hne h1]
      simp
    | false =>
      cases h2 : f.itemsInsert with
      | true =>
        rw [handlePlaceOrder_itemsFail _ _ _ _ _ hne h1 h2]
        simp
      | false =>
        cases h3 : f.clearFail with
        | true =>
          rw [handlePlaceOrder_clearFail _ _ _ _ _ hne h1 h2 h3]
          simp
        | false =>
          rw [handlePlaceOrder_run _ _ _ _ _ hne h1 h2 h3]
          simp

/-- Witness for the amended C5 theorem at a concrete input: an empty cart is
rejected silently with the store unchanged. -/
theorem placeOrder_guard_semantics_witness :
    handlePlaceOrder (some 7) [] 5 noFail baseState =
      (baseState, PlaceOrderResult.silentReturn) :=
  (placeOrder_guard_semantics (some 7) [] 5 noFail baseState).1 (Or.inr rfl)

/-! ### C10 — stock written as an absolute overwrite from the snapshot -/

/-- C10: checkout step 3 writes each involved product's stock as the cached
snapshot stock minus the line quantity, for any current store-side stock
value `s` — the written value does not mention `s`, so any store-side stock
change made between cart load and checkout is discarded rather than composed
with the decrement. -/
theorem placeOrder_stock_overwrite (uid orderId : ℕ) (cartItems : List CartItem)
    (st : StoreState) (item : CartItem) (s : ℤ)
    (hnd : (cartItems.map (fun i => i.product_id)).Nodup)
    (hmem : item ∈ cartItems)
    (hs : stockOf st.products item.product_id = some s) :
    stockOf (handlePlaceOrder (some uid) cartItems orderId noFail st).1.products
        item.product_id =
      some (item.product.stock_quantity - item.quantity) := by
  have h : cartItems ≠ [] := by rintro rfl; cases hmem
  rw [handlePlaceOrder_run uid cartItems orderId noFail st h rfl rfl rfl]
  show stockOf (applyStockUpdates noFail.stockFail cartItems st.products) _ = _
  rw [stockOf_applyStockUpdates_mem noFail.stockFail cartItems st.products item hnd hmem
    (by simp [noFail])]
  rw [hs]
  rfl

/-- Witness for C10 at a concrete input: the line's snapshot stock is 50 and
its quantity 2, and checkout writes stock 48 even though the store-side stock
was 50 at the time. -/
theorem placeOrder_stock_overwrite_witness :
    stockOf (handlePlaceOrder (some 7) [wItem] 16 noFail baseState).1.products 2 =
      some 48 :=
  placeOrder_stock_overwrite 7 16 [wItem] baseState wItem 50 (by simp)
    (by simp) (by rfl)

/-! ### C8 — setQuantity below one -/

/-- A sample cart row. -/
def sampleRow : CartRow :=
  { id := 3, user_id := 7, product_id := 2, quantity := 1, selected_size := "9" }

/-- C8 counterexample: `handleQuantityChange` with quantity 0 leaves the cart
unchanged and issues no update request, but it surfaces no error at all — the
notification channel is `none`, not an `InvalidQuantity` error, refuting the
claim that the operation fails with that error. -/
theorem quantityChange_silent_counterexample :
    handleQuantityChange 3 0 [sampleRow] = ([sampleRow], false, none) ∧
    (none : Option String) ≠ some "InvalidQuantity" := by
  refine ⟨by decide, by decide⟩

/-- C8 (amended): for any quantity `n < 1`, `handleQuantityChange` returns
without issuing an update request — the cart rows are unchanged — and
surfaces no error notification (the rejection is silent; no `InvalidQuantity`
error exists). -/
theorem quantityChange_rejects_below_one (cartItemId : ℕ) (n : ℤ) (cart : List CartRow)
    (h : n < 1) :
    handleQuantityChange cartItemId n cart = (cart, false, none) := by
  unfold handleQuantityChange
  rw [if_pos h]

/-- Witness for the amended C8 theorem at a concrete input: quantity 0 is
rejected silently. -/
theorem quantityChange_rejects_below_one_witness :
    handleQuantityChange 3 0 [sampleRow] = ([sampleRow], false, none) :=
  quantityChange_rejects_below_one 3 0 [sampleRow] (by decide)

/-! ### C7 — adding the same (owner, item, variant) twice -/

/-- Whether a cart row is the line of the given (owner, item, variant)
triple — the key of the cart table's `UNIQUE(user_id, product_id,
selected_size)` constraint. -/
def cartLineMatches (uid pid : ℕ) (size : String) (r : CartRow) : Bool :=
  decide (r.user_id = uid) && decide (r.product_id = pid) && decide (r.selected_size = size)

/-- Modelled from the spec: `add(owner, item, variant)` increments the
quantity of an existing matching cart line and otherwise inserts a new line
with quantity 1 (the `useCart` hook implementing `addToCart` is not among
the source files; the schema enforces `UNIQUE(user_id, product_id,
selected_size)` and the spec fixes the increment-on-re-add behaviour). -/
def addToCart (uid pid : ℕ) (size : String) (freshId : ℕ) (cart : List CartRow) :
    List CartRow :=
  if cart.any (cartLineMatches uid pid size) then
    cart.map (fun r =>
      if cartLineMatches uid pid size r then { r with quantity := r.quantity + 1 } else r)
  else
    cart ++ [{ id := freshId, user_id := uid, product_id := pid, quantity := 1,
               selected_size := size }]

theorem addToCart_no_match (uid pid : ℕ) (size : String) (freshId : ℕ) (cart : List CartRow)
    (h : ∀ r ∈ cart, cartLineMatches uid pid size r = false) :
    addToCart uid pid size freshId cart =
      cart ++ [{ id := freshId, user_id := uid, product_id := pid, quantity := 1,
                 selected_size := size }] := by
  unfold addToCart
  rw [if_neg]
  rw [List.any_eq_false.mpr (fun r hr => by rw [h r hr]; exact Bool.false_ne_true)]
  exact Bool.false_ne_true

theorem cartLineMatches_new (uid pid : ℕ) (size : String) (freshId : ℕ) (q : ℤ) :
    cartLineMatches uid pid size
      { id := freshId, user_id := uid, product_id := pid, quantity := q,
        selected_size := size } = true := by
  simp [cartLineMatches]

/-- C7: starting from a cart with no line for the (owner, item, variant)
triple, adding that triple twice yields exactly one matching cart line, with
quantity 2, and leaves every other cart row untouched — the second add
increments the existing line instead of inserting a duplicate. -/
theorem addToCart_twice (uid pid : ℕ) (size : String) (id1 id2 : ℕ) (cart : List CartRow)
    (h : cart.filter (cartLineMatches uid pid size) = []) :
    (addToCart uid pid size id2 (addToCart uid pid size id1 cart)).filter
        (cartLineMatches uid pid size) =
      [{ id := id1, user_id := uid, product_id := pid, quantity := 2,
         selected_size := size }] ∧
    (addToCart uid pid size id2 (addToCart uid pid size id1 cart)).filter
        (fun r => !(cartLineMatches uid pid size r)) = cart := by
  have hall : ∀ r ∈ cart, cartLineMatches uid pid size r = false := by
    intro r hr
    have h2 := List.filter_eq_nil_iff.mp h r hr
    simpa using h2
  rw [addToCart_no_match uid pid size id1 cart hall]
  have hany : (cart ++ [(⟨id1, uid, pid, 1, size⟩ : CartRow)]).any
      (cartLineMatches uid pid size) = true := by
    rw [List.any_append]
    simp [cartLineMatches_new]
  unfold addToCart
  rw [if_pos hany, List.map_append]
  have hmap : cart.map (fun r =>
      if cartLineMatches uid pid size r then { r with quantity := r.quantity + 1 } else r)
      = cart := by
    have hcong := List.map_congr_left (l := cart)
      (f := fun r =>
        if cartLineMatches uid pid size r then { r with quantity := r.quantity + 1 } else r)
      (g := fun r => r) (fun r hr => by simp [hall r hr])
    rw [hcong]
    simp
  rw [hmap]
  have hone : ([(⟨id1, uid, pid, 1, size⟩ : CartRow)] : List CartRow).map (fun r =>
        if cartLineMatches uid pid size r then { r with quantity := r.quantity + 1 }
        else r) =
      [{ id := id1, user_id := uid, product_id := pid, quantity := 2,
         selected_size := size }] := by
    simp only [List.map_cons, List.map_nil, cartLineMatches_new uid pid size id1 1,
      if_true]
    norm_num
  rw [hone, List.filter_append, List.filter_append, h]
  constructor
  · rw [List.filter_cons, if_pos (cartLineMatches_new uid pid size id1 2)]
    rfl
  · have hkeep : cart.filter (fun r => !(cartLineMatches uid pid size r)) = cart := by
      rw [List.filter_eq_self]
      intro r hr
      rw [hall r hr]
      rfl
    rw [hkeep, List.filter_cons, if_neg]
    · simp
    · rw [cartLineMatches_new uid pid size id1 2]
      decide

/-- Witness for C7 at a concrete input: adding (owner 7, product 2, size 9)
twice to an empty cart gives exactly one line with quantity 2. -/
theorem addToCart_twice_witness :
    (addToCart 7 2 "9" 31 (addToCart 7 2 "9" 30 [])).filter (cartLineMatches 7 2 "9") =
      [{ id := 30, user_id := 7, product_id := 2, quantity := 2, selected_size := "9" }] :=
  (addToCart_twice 7 2 "9" 30 31 [] (by rfl)).1

/-! ### C9 — deactivation, catalog reads and order history -/

/-- The products-table row visibility of the RLS policies: `Anyone can view
active products` (`is_active = true`) or the caller is an admin (`Admins can
manage products`). -/
def visibleToUser (isAdminCaller : Bool) (p : Product) : Bool :=
  p.is_active || isAdminCaller

/-- One order line as rendered by `Orders.tsx`: the `order_items` row columns
plus the embedded `product:products (name, image_url)` resource, which is
`none` when no products row is visible to the caller for that id. -/
structure OrderItemView where
  product_id : ℕ
  quantity : ℤ
  price : ℚ
  selected_size : String
  product : Option (String × String)
deriving Repr, DecidableEq

/-- The `fetchOrders` read of `Orders.tsx`: the caller's orders, each with its
order lines and the product name/image embedded through the products table —
the embed is resolved against the rows the caller may read under RLS. -/
def fetchOrders (uid : ℕ) (isAdminCaller : Bool) (st : StoreState) :
    List (Order × List OrderItemView) :=
  (st.orders.filter (fun o => decide (o.user_id = uid))).map (fun o =>
    (o, (st.order_items.filter (fun it => decide (it.order_id = o.id))).map (fun it =>
      { product_id := it.product_id, quantity := it.quantity, price := it.price,
        selected_size := it.selected_size,
        product := (st.products.find? (fun p =>
            decide (p.id = it.product_id) && visibleToUser isAdminCaller p)).map
          (fun p => (p.name, p.image_url)) })))

/-- The `toggleProductStatus` mutation of `Admin.tsx`: sets `is_active` to the
negation of the passed current status on every products row with the id. -/
def toggleProductStatus (productId : ℕ) (currentStatus : Bool) (products : List Product) :
    List Product :=
  products.map (fun p =>
    if p.id = productId then { p with is_active := !currentStatus } else p)

theorem find?_toggled_none (pid : ℕ) (ps : List Product) :
    (toggleProductStatus pid true ps).find?
      (fun p => decide (p.id = pid) && visibleToUser false p) = none := by
  induction ps with
  | nil => rfl
  | cons p ps ih =>
    simp only [toggleProductStatus, List.map_cons] at ih ⊢
    rw [List.find?_cons]
    by_cases hp : p.id = pid
    · rw [if_pos hp]
      have : (decide (({ p with is_active := !true } : Product).id = pid) &&
          visibleToUser false { p with is_active := !true }) = false := by
        simp [visibleToUser]
      rw [this]
      exact ih
    · rw [if_neg hp]
      have : (decide (p.id = pid) && visibleToUser false p) = false := by
        simp [hp]
      rw [this]
      exact ih

/-- A sample catalog row referenced by an existing order. -/
def histProduct : Product :=
  { id := 5, name := "Vans Old Skool", description := "Iconic skate shoes",
    price := 69.99, image_url := "vans.jpg", brand := "Vans",
    stock_quantity := 40, is_active := true }

/-- A store holding one historical order of owner 7 with one line for
`histProduct`. -/
def histState : StoreState :=
  { products := [histProduct],
    orders := [{ id := 20, user_id := 7, total_amount := 69.99, status := "pending" }],
    order_items := [{ order_id := 20, product_id := 5, quantity := 1, price := 69.99,
                      selected_size := "8" }],
    cart := [] }

/-- C9 counterexample: before deactivation the owner's order history embeds
the item's name and image; after setting `is_active = false` the catalog read
returns nothing and the order line's embedded product is `none` — the
name/image are not denormalized into the order line but read live through the
RLS-filtered products table, so they are no longer readable by the non-admin
owner, refuting the claim that the line stays readable unchanged including
name and image. -/
theorem deactivate_counterexample :
    ((fetchOrders 7 false histState).map (fun e => e.2.map (fun v => v.product)) =
      [[some ("Vans Old Skool", "vans.jpg")]]) ∧
    ((fetchOrders 7 false
        { histState with products := toggleProductStatus 5 true histState.products }).map
        (fun e => e.2.map (fun v => v.product)) = [[none]]) ∧
    (fetchProducts (toggleProductStatus 5 true histState.products) = []) ∧
    (some ("Vans Old Skool", "vans.jpg") ≠ (none : Option (String × String))) := by
  refine ⟨by decide, by decide, by decide, by decide⟩

/-- C9 (amended): deactivating an item removes it from all catalog reads and
does not touch the `order_items` table — each historical line's own columns
(product id, quantity, captured price, size) remain readable unchanged in the
owner's order history — but the displayed item name and image are not
denormalized: they are embedded through the products table, whose row
visibility for a non-admin caller requires `is_active = true`, so after
deactivation the embed for that item resolves to `none`. -/
theorem deactivate_semantics (pid uid : ℕ) (st : StoreState) :
    (∀ p ∈ fetchProducts (toggleProductStatus pid true st.products), p.id ≠ pid) ∧
    ({ st with products := toggleProductStatus pid true st.products }.order_items =
      st.order_items) ∧
    (∀ e ∈ fetchOrders uid false
        { st with products := toggleProductStatus pid true st.products },
      ∀ v ∈ e.2, v.product_id = pid → v.product = none) ∧
    ((fetchOrders uid false
        { st with products := toggleProductStatus pid true st.products }).map
        (fun e => (e.1, e.2.map (fun v =>
          (v.product_id, v.quantity, v.price, v.selected_size)))) =
      (fetchOrders uid false st).map
        (fun e => (e.1, e.2.map (fun v =>
          (v.product_id, v.quantity, v.price, v.selected_size))))) := by
  refine ⟨?_, rfl, ?_, ?_⟩
  · intro p hp
    obtain ⟨hmem, hact⟩ := List.mem_filter.mp hp
    obtain ⟨q, hq, hpq⟩ := List.mem_map.mp hmem
    intro hid
    by_cases hqid : q.id = pid
    · rw [if_pos hqid] at hpq
      rw [← hpq] at hact
      simp at hact
    · rw [if_neg hqid] at hpq
      rw [← hpq] at hid
      exact hqid hid
  · intro e he v hv hvpid
    obtain ⟨o, ho, hoe⟩ := List.mem_map.mp he
    rw [← hoe] at hv
    obtain ⟨it, hit, hitv⟩ := List.mem_map.mp hv
    rw [← hitv] at hvpid ⊢
    simp only at hvpid ⊢
    rw [hvpid]
    rw [find?_toggled_none pid st.products]
    rfl
  · unfold fetchOrders
    rw [List.map_map, List.map_map]
    apply List.map_congr_left
    intro o ho
    dsimp only [Function.comp]
    congr 1
    rw [List.map_map, List.map_map]
    exact List.map_congr_left (fun it hit => rfl)

/-- Witness for the amended C9 theorem at a concrete input: after
deactivating the item, it is gone from the catalog while the order line's own
columns are untouched. -/
theorem deactivate_semantics_witness :
    (∀ p ∈ fetchProducts (toggleProductStatus 5 true histState.products), p.id ≠ 5) ∧
    ({ histState with
        products := toggleProductStatus 5 true histState.products }.order_items =
      histState.order_items) :=
  ⟨(deactivate_semantics 5 7 histState).1, (deactivate_semantics 5 7 histState).2.1⟩

end ShoeKart
